import Mathlib

/-!
# Verification of the Kabane record store against its specification

Shallow embedding of the Kabane core (src/api/github.ts, src/utils/parser.ts):
a kanban client that stores tickets as YAML files in a remote git repository
and talks to the provider through its REST contents/tree API.

Modelling conventions:
* Remote state is an association list from file path to file body.
* The third-party YAML codec is modelled at the typed-document level: a file
  body is either a document that parses as a ticket record or text that fails
  to parse.  The content hash of a file (a git blob sha) is modelled as a
  computable function of the body.
* The provider's hash-gated write endpoint is not part of this repository;
  it is modelled from the spec (section 4.1: an omitted expected hash means
  the file must not exist yet; a present hash must match the stored one,
  otherwise the write fails with Conflict and changes nothing; an update of
  an existing file with no hash supplied is rejected by the provider).
* Network-visible behaviour (which requests a function issues) is modelled
  by returning an explicit trace of requests where a claim needs it.
* The owner/repo/token/branch arguments threaded through every source
  function only select which remote repository is addressed; here a single
  RemoteState value plays that role, so those arguments are dropped except
  where an operation's behaviour depends on them.
-/

namespace Kabane

/-! ## Error model: GitHubAPIError (src/api/github.ts lines 62-87) -/

/-- The typed error thrown by the HTTP client: an HTTP status plus message. -/
structure GitHubAPIError where
  status : Nat
  message : String
  deriving DecidableEq, Repr

def GitHubAPIError.isNotFound (e : GitHubAPIError) : Bool := e.status == 404

def GitHubAPIError.isUnauthorized (e : GitHubAPIError) : Bool := e.status == 401

def GitHubAPIError.isForbidden (e : GitHubAPIError) : Bool := e.status == 403

def GitHubAPIError.isConflict (e : GitHubAPIError) : Bool := e.status == 409

/-! ## Ticket data model (src/types/index.ts) -/

/-- A ticket as held in memory (interface Ticket).  Optional TypeScript
fields become Option; the priority union type is kept as a string checked
against the valid list, exactly as validatePriority does. -/
structure Ticket where
  id : String
  path : String
  sha : String
  title : String
  type : String
  status : String
  priority : Option String := none
  assignees : Option (List String) := none
  labels : Option (List String) := none
  parent : Option String := none
  version : Option String := none
  estimate : Option Int := none
  dueDate : Option String := none
  description : Option String := none
  images : Option (List String) := none
  updatedAt : Option String := none
  createdAt : Option String := none
  deriving DecidableEq, Repr

/-- Raw ticket data as stored in the YAML file (interface TicketYaml). -/
structure TicketYaml where
  title : String
  type : String
  status : String
  priority : Option String := none
  assignees : Option (List String) := none
  labels : Option (List String) := none
  parent : Option String := none
  version : Option String := none
  estimate : Option Int := none
  dueDate : Option String := none
  description : Option String := none
  images : Option (List String) := none
  createdAt : Option String := none
  updatedAt : Option String := none
  deriving DecidableEq, Repr

/-! ## String primitives

Structural char-list implementations of the string operations the source
uses (split, startsWith, endsWith, toLowerCase), with the same semantics
as their JavaScript counterparts. -/

/-- String.prototype.split with a single-character separator:
"a/b".split("/") = ["a","b"], "".split("/") = [""],
"a/".split("/") = ["a",""]. -/
def splitOnChar (sep : Char) : List Char → List (List Char)
  | [] => [[]]
  | c :: cs =>
      let rest := splitOnChar sep cs
      if c = sep then [] :: rest
      else
        match rest with
        | r :: rs => (c :: r) :: rs
        | [] => [[c]]

/-- String.prototype.split on a string, returning strings. -/
def strSplitOn (s : String) (sep : Char) : List String :=
  (splitOnChar sep s.data).map String.mk

/-- String.prototype.endsWith. -/
def strEndsWith (s suffixStr : String) : Bool :=
  suffixStr.data.isSuffixOf s.data

/-- String.prototype.startsWith. -/
def strStartsWith (s prefixStr : String) : Bool :=
  prefixStr.data.isPrefixOf s.data

/-- String.prototype.toLowerCase (on the ASCII range the source cares
about). -/
def strToLower (s : String) : String :=
  String.mk (s.data.map Char.toLower)

/-- Drop the last n characters of a string. -/
def strDropRight (s : String) (n : Nat) : String :=
  String.mk (s.data.take (s.data.length - n))

/-! ## Parser helpers (src/utils/parser.ts lines 216-244) -/

/-- strip the final .yml / .yaml extension, as the regex
replace(/\.(yml|yaml)$/, '') does. -/
def stripTicketExt (s : String) : String :=
  if strEndsWith s ".yml" then strDropRight s 4
  else if strEndsWith s ".yaml" then strDropRight s 5
  else s

/-- extractTicketId: last path component (split('/').pop() || path, where an
empty pop result is falsy and falls back to the whole path) with the
extension stripped. -/
def extractTicketId (path : String) : String :=
  let filename :=
    match (strSplitOn path '/').getLast? with
    | some f => if f = "" then path else f
    | none => path
  stripTicketExt filename

/-- validatePriority: keep the value only when it is one of the four valid
priorities, otherwise drop it to undefined. -/
def validatePriority (priority : Option String) : Option String :=
  match priority with
  | some p => if ["low", "medium", "high", "critical"].contains p then some p else none
  | none => none

/-- normalizeArray on a value the YAML layer already decoded as a string
list: Array.isArray is true and value.map(String) is the identity.  (The
string-scalar branch of the source cannot arise for a typed list field.) -/
def normalizeArrayM (value : Option (List String)) : Option (List String) :=
  match value with
  | some xs => some xs
  | none => none

/-- The TypeScript truthiness guard "if (x) data.f = x" on an optional
string field: the field is emitted only when present and nonempty. -/
def keepTruthyStr (o : Option String) : Option String :=
  match o with
  | some s => if s = "" then none else some s
  | none => none

/-- The guard "if (x?.length) data.f = x" on an optional list field: the
field is emitted only when present and nonempty. -/
def keepNonemptyList (o : Option (List String)) : Option (List String) :=
  match o with
  | some xs => if xs.length = 0 then none else some xs
  | none => none

/-! ## Ticket codec (src/utils/parser.ts lines 157-210) -/

/-- parseTicketFile on a successfully YAML-decoded document: derive the id
from the path, apply the defaulting rules (|| defaults fire on empty
strings, the falsy values a typed document can carry), validate priority,
normalize list fields, keep estimate only when numeric (always, for a typed
document). -/
def parseTicketFileY (data : TicketYaml) (path : String) (sha : String) : Ticket :=
  let id := extractTicketId path
  { id := id
    path := path
    sha := sha
    title := if data.title = "" then "Ticket " ++ id else data.title
    type := if data.type = "" then "task" else data.type
    status := if data.status = "" then "backlog" else data.status
    priority := validatePriority data.priority
    assignees := normalizeArrayM data.assignees
    labels := normalizeArrayM data.labels
    parent := data.parent
    version := data.version
    estimate := data.estimate
    dueDate := data.dueDate
    description := data.description
    images := normalizeArrayM data.images
    createdAt := data.createdAt
    updatedAt := data.updatedAt }

/-- serializeTicket at the typed-document level: required fields always,
optional fields only when truthy / nonempty, and the updated-timestamp
always refreshed to the encoding time (new Date().toISOString(), passed
here as the parameter now). -/
def serializeTicketY (now : String) (ticket : Ticket) : TicketYaml :=
  { title := ticket.title
    type := ticket.type
    status := ticket.status
    priority := keepTruthyStr ticket.priority
    assignees := keepNonemptyList ticket.assignees
    labels := keepNonemptyList ticket.labels
    parent := keepTruthyStr ticket.parent
    version := keepTruthyStr ticket.version
    estimate := ticket.estimate
    dueDate := keepTruthyStr ticket.dueDate
    description := keepTruthyStr ticket.description
    images := keepNonemptyList ticket.images
    createdAt := keepTruthyStr ticket.createdAt
    updatedAt := some now }

/-! ## List-style config files (src/utils/parser.ts lines 47-148) -/

/-- A raw column entry as the YAML layer yields it: statuses may be absent
(Array.isArray false), in which case the parser defaults to [id]. -/
structure RawColumn where
  id : String
  name : String
  statuses : Option (List String) := none
  color : Option String := none
  deriving DecidableEq, Repr

/-- An in-memory kanban column (interface KanbanColumn). -/
structure KanbanColumn where
  id : String
  name : String
  statuses : List String
  color : Option String := none
  deriving DecidableEq, Repr

/-- A ticket type (interface TicketType). -/
structure TicketType where
  id : String
  name : String
  icon : Option String := none
  color : Option String := none
  deriving DecidableEq, Repr

/-- A version / sprint (interface Version; VersionYaml has the same
fields). -/
structure Version where
  id : String
  name : String
  startDate : Option String := none
  targetDate : Option String := none
  createdAt : Option String := none
  deriving DecidableEq, Repr

/-- The two YAML shapes a list-style file can decode to: a bare sequence
(Array.isArray data) or an object whose single collection key may or may
not hold a list. -/
inductive ListFileData (α : Type) where
  | bare (xs : List α)
  | keyed (xs : Option (List α))
  deriving DecidableEq, Repr

/-- parseColumnsFile: accept both shapes, reject an object without a list
under the collection key, and normalize each entry (statuses defaults to
[id] when not an array). -/
def parseColumnsFileY (data : ListFileData RawColumn) : Except String (List KanbanColumn) :=
  let columns :=
    match data with
    | .bare xs => some xs
    | .keyed xs => xs
  match columns with
  | none => .error "columns.yml must contain an array of columns"
  | some cols => .ok (cols.map fun col =>
      { id := col.id
        name := col.name
        statuses := match col.statuses with
          | some xs => xs
          | none => [col.id]
        color := col.color })

/-- parseTicketTypesFile: accept both shapes and map each entry to its
four fields. -/
def parseTicketTypesFileY (data : ListFileData TicketType) : Except String (List TicketType) :=
  let types :=
    match data with
    | .bare xs => some xs
    | .keyed xs => xs
  match types with
  | none => .error "ticketTypes.yml must contain an array of ticket types"
  | some ts => .ok (ts.map fun t =>
      { id := t.id, name := t.name, icon := t.icon, color := t.color })

/-- parseVersionsFile: accept both shapes and map each entry to its five
fields. -/
def parseVersionsFileY (data : ListFileData Version) : Except String (List Version) :=
  let versions :=
    match data with
    | .bare xs => some xs
    | .keyed xs => xs
  match versions with
  | none => .error "versions.yml must contain an array of versions"
  | some vs => .ok (vs.map fun v =>
      { id := v.id, name := v.name, startDate := v.startDate
        targetDate := v.targetDate, createdAt := v.createdAt })

/-! ## Remote repository model

The remote store is an association list from path to file body.  A file
body is either a document that YAML-parses as a ticket record or content
that fails to parse (the third-party codec, modelled at the typed level). -/

/-- A remote file body: either ticket YAML that decodes, or malformed
content on which parseYaml throws. -/
inductive FileBody where
  | ticketDoc (doc : TicketYaml)
  | malformed
  deriving DecidableEq, Repr

/-- Modelled from the spec (Glossary): the content hash is an opaque token
identifying the exact stored byte content; computed here as a tag over the
body.  Nothing below relies on injectivity of this function. -/
def contentHash (b : FileBody) : String :=
  match b with
  | .ticketDoc d =>
      "blob:" ++ d.title ++ "|" ++ d.type ++ "|" ++ d.status ++ "|"
        ++ (match d.updatedAt with | some u => u | none => "")
  | .malformed => "blob:malformed"

/-- The remote repository content: path to file body. -/
def RemoteState := List (String × FileBody)

/-- The content hash currently stored at a path, none when absent. -/
def remoteShaAt (st : RemoteState) (path : String) : Option String :=
  (List.lookup path st).map contentHash

/-- Commit a body at a path (replacing any previous body). -/
def setFile (st : RemoteState) (path : String) (b : FileBody) : RemoteState :=
  (path, b) :: st.filter (fun e => e.1 ≠ path)

/-- Modelled from the spec (section 4.1 putFile), provider behaviour that
is not part of this repository: an omitted expected hash means the file
must not exist yet; a present hash must match the currently stored hash.
A mismatch (including a supplied hash for an absent file) fails with HTTP
409 Conflict and changes nothing; an existing file written with no hash
supplied is rejected with HTTP 422, changing nothing. -/
def providerPutFile (st : RemoteState) (path : String) (body : FileBody)
    (bodySha : Option String) : Except GitHubAPIError String × RemoteState :=
  match List.lookup path st with
  | none =>
      match bodySha with
      | none => (.ok (contentHash body), setFile st path body)
      | some _ => (.error ⟨409, "expected hash does not match current remote content"⟩, st)
  | some old =>
      match bodySha with
      | none => (.error ⟨422, "sha was not supplied"⟩, st)
      | some s =>
          if s = contentHash old then (.ok (contentHash body), setFile st path body)
          else (.error ⟨409, "expected hash does not match current remote content"⟩, st)

/-! ## Commit API (src/api/github.ts lines 217-260) -/

/-- interface CreateOrUpdateFileParams.  The file content is carried as a
typed body (the base64 transport encoding is a bijection applied and
undone by the transport and is modelled as the identity). -/
structure CreateOrUpdateFileParams where
  path : String
  content : FileBody
  message : String
  sha : Option String := none
  branch : Option String := none
  deriving DecidableEq, Repr

/-- The JSON request body createOrUpdateFile sends. -/
structure RequestBody where
  message : String
  content : FileBody
  sha : Option String := none
  branch : Option String := none
  deriving DecidableEq, Repr

/-- The body construction in createOrUpdateFile: message and content
always; sha and branch only when truthy, so an empty-string sha is
omitted from the request entirely (if (sha) body.sha = sha). -/
def buildRequestBody (params : CreateOrUpdateFileParams) : RequestBody :=
  { message := params.message
    content := params.content
    sha := keepTruthyStr params.sha
    branch := keepTruthyStr params.branch }

/-- The piece of CommitResponse the store reads back: response.content.sha. -/
structure CommitContent where
  sha : String
  deriving DecidableEq, Repr

/-- interface CommitResponse (the commit part is unused by the store). -/
structure CommitResponse where
  content : CommitContent
  deriving DecidableEq, Repr

/-- createOrUpdateFile: build the request body and PUT it to the contents
endpoint; a non-ok response surfaces as a GitHubAPIError. -/
def createOrUpdateFile (params : CreateOrUpdateFileParams) (st : RemoteState) :
    Except GitHubAPIError CommitResponse × RemoteState :=
  let body := buildRequestBody params
  match providerPutFile st params.path body.content body.sha with
  | (.ok newSha, st2) => (.ok { content := { sha := newSha } }, st2)
  | (.error e, st2) => (.error e, st2)

/-- fetchFileContent: read a file, failing with 404 when absent; returns
the decoded content and its current hash. -/
def fetchFileContent (st : RemoteState) (path : String) :
    Except GitHubAPIError (FileBody × String) :=
  match List.lookup path st with
  | none => .error ⟨404, "Not Found"⟩
  | some b => .ok (b, contentHash b)

/-! ## Kabane folder constants (src/api/github.ts lines 305-309) -/

def KABANE_FOLDER : String := ".kabane"

def TICKETS_FOLDER : String := KABANE_FOLDER ++ "/tickets"

/-! ## Ticket store (src/api/github.ts lines 568-593) -/

/-- The params updateTicket passes to createOrUpdateFile: the ticket's own
path, its serialized body, and its held sha as the expected hash. -/
def updateTicketParams (ticket : Ticket) (now : String) : CreateOrUpdateFileParams :=
  { path := ticket.path
    content := .ticketDoc (serializeTicketY now ticket)
    message := "📝 Update ticket: " ++ ticket.title
    sha := some ticket.sha
    branch := none }

/-- updateTicket: write through createOrUpdateFile with the held sha; on
success return the ticket carrying the new content sha and a refreshed
updated-timestamp. -/
def updateTicket (ticket : Ticket) (now : String) (st : RemoteState) :
    Except GitHubAPIError Ticket × RemoteState :=
  match createOrUpdateFile (updateTicketParams ticket now) st with
  | (.ok resp, st2) =>
      (.ok { ticket with sha := resp.content.sha, updatedAt := some now }, st2)
  | (.error e, st2) => (.error e, st2)

/-! ## Tree listing (src/api/github.ts lines 177-211) -/

inductive TreeItemType where
  | blob
  | tree
  deriving DecidableEq, Repr

/-- interface GitHubTreeItem (mode, size and url are unread by the core
and omitted). -/
structure GitHubTreeItem where
  path : String
  type : TreeItemType
  sha : String
  deriving DecidableEq, Repr

/-- interface TreeResponse: the provider's recursive tree listing with its
truncation flag. -/
structure TreeResponse where
  tree : List GitHubTreeItem
  truncated : Bool
  deriving DecidableEq, Repr

/-- path.replace(/^\/+|\/+$/g, ''): strip leading and trailing slashes. -/
def normalizePath (path : String) : String :=
  String.mk
    (((path.data.dropWhile (fun c => c = '/')).reverse.dropWhile
      (fun c => c = '/')).reverse)

/-- listFilesRecursively, given the outcome of the ref+tree fetches (either
request may throw, and the error propagates): filter the response tree to
blobs whose path starts with the normalized root path.  The truncated flag
is not consulted, and the return carries no warning channel. -/
def listFilesRecursively (fetched : Except GitHubAPIError TreeResponse)
    (path : String) : Except GitHubAPIError (List GitHubTreeItem) :=
  match fetched with
  | .error e => .error e
  | .ok resp =>
      let normalizedPath := normalizePath path
      .ok (resp.tree.filter fun item =>
        item.type == TreeItemType.blob && strStartsWith item.path normalizedPath)

/-! ## Bulk ticket loading (src/api/github.ts lines 395-425) -/

/-- One iteration of the loadTickets loop body after the extension check:
fetch the file, then parse it; either failure yields none (the inner catch
logs and skips). -/
def fetchAndParseTicket (st : RemoteState) (file : GitHubTreeItem) : Option Ticket :=
  match fetchFileContent st file.path with
  | .error _ => none
  | .ok (b, sha) =>
      match b with
      | .ticketDoc doc => some (parseTicketFileY doc file.path sha)
      | .malformed => none

/-- The loadTickets loop: skip files without a .yml/.yaml suffix, and for
the rest keep every ticket that fetches and parses, skipping failures. -/
def loadTicketsFromFiles (st : RemoteState) : List GitHubTreeItem → List Ticket
  | [] => []
  | file :: rest =>
      if strEndsWith file.path ".yml" || strEndsWith file.path ".yaml" then
        match fetchAndParseTicket st file with
        | some t => t :: loadTicketsFromFiles st rest
        | none => loadTicketsFromFiles st rest
      else loadTicketsFromFiles st rest

/-- loadTickets: list the tickets folder (the listing result of the
ref+tree fetches is the input) and load each file; a NotFound from the
listing means no tickets folder yet and yields the empty list, any other
listing error propagates. -/
def loadTickets (st : RemoteState) (listing : Except GitHubAPIError TreeResponse) :
    Except GitHubAPIError (List Ticket) :=
  match listFilesRecursively listing TICKETS_FOLDER with
  | .error e => if e.isNotFound then .ok [] else .error e
  | .ok files => .ok (loadTicketsFromFiles st files)

/-! ## Image management (src/api/github.ts lines 736-861) -/

/-- A network request issued by an operation (method and endpoint). -/
structure NetRequest where
  method : String
  endpoint : String
  deriving DecidableEq, Repr

def ALLOWED_IMAGE_EXTENSIONS : List String := ["jpg", "jpeg", "png", "gif", "webp", "svg"]

/-- isValidImageExtension: the lowercased text after the last dot must be
on the allow-list; an empty extension (filename.split('.').pop() being
falsy) is rejected. -/
def isValidImageExtension (filename : String) : Bool :=
  let ext := strToLower ((strSplitOn filename '.').getLastD filename)
  if ext = "" then false else ALLOWED_IMAGE_EXTENSIONS.contains ext

/-- file.name.replace(/[^a-zA-Z0-9.-]/g, '_'): every character outside
ASCII letters, digits, dot and hyphen becomes an underscore. -/
def sanitizeImageName (s : String) : String :=
  String.mk (s.data.map fun c =>
    if c.isAlpha || c.isDigit || c = '.' || c = '-' then c else '_')

/-- getImagePath: the deterministic per-ticket asset path. -/
def getImagePath (ticketId : String) (imageName : String) : String :=
  ".kabane/images/" ++ ticketId ++ "/" ++ imageName

/-- Decimal rendering of a natural number, as the template literal
interpolation of Date.now() produces. -/
def natToDecString (n : Nat) : String :=
  if n = 0 then "0"
  else String.mk (((Nat.digits 10 n).map Nat.digitChar).reverse)

/-- The generated stored name in uploadImage:
timestamp-dash-sanitized original name. -/
def storedImageName (timestamp : Nat) (originalName : String) : String :=
  natToDecString timestamp ++ "-" ++ sanitizeImageName originalName

/-- uploadImage, with its network activity made explicit as a request
trace: validate the extension first (throwing with an empty trace on
failure), then generate the stored name, resolve the target branch
(one GET when no branch was supplied), and PUT the file. -/
def uploadImage (owner repo ticketId fileName : String) (timestamp : Nat)
    (branch : Option String) : Except String String × List NetRequest :=
  if !isValidImageExtension fileName then
    (.error ("Invalid image extension. Allowed: "
      ++ String.intercalate ", " ALLOWED_IMAGE_EXTENSIONS), [])
  else
    let imageName := storedImageName timestamp fileName
    let imagePath := getImagePath ticketId imageName
    let branchRequests : List NetRequest :=
      match branch with
      | some _ => []
      | none => [{ method := "GET", endpoint := "/repos/" ++ owner ++ "/" ++ repo }]
    (.ok imageName,
      branchRequests
        ++ [{ method := "PUT"
              endpoint := "/repos/" ++ owner ++ "/" ++ repo ++ "/contents/" ++ imagePath }])

/-! ## Helper lemmas -/

/-- A write through createOrUpdateFile that carries a nonempty expected
hash not matching the remote content hash fails with 409 and leaves the
remote state unchanged. -/
theorem createOrUpdateFile_stale (st : RemoteState) (params : CreateOrUpdateFileParams)
    (s : String) (hs : params.sha = some s) (hne : s ≠ "")
    (hmis : remoteShaAt st params.path ≠ some s) :
    (createOrUpdateFile params st).1
        = .error ⟨409, "expected hash does not match current remote content"⟩ ∧
    (createOrUpdateFile params st).2 = st := by
  unfold createOrUpdateFile buildRequestBody
  simp only [hs, keepTruthyStr, if_neg hne]
  unfold providerPutFile
  cases h : List.lookup params.path st with
  | none => simp
  | some old =>
      have hcs : ¬ s = contentHash old := by
        intro he
        exact hmis (by unfold remoteShaAt; rw [h, he]; rfl)
      simp [hcs]

/-! ## Claims -/

/-- C1: a ticket write through updateTicket (and any file write through
createOrUpdateFile carrying an expected hash, i.e. a nonempty sha) whose
expected hash differs from the current remote content hash fails with an
error classified as Conflict and leaves the remote state unchanged; it
never silently overwrites newer remote content. -/
theorem stale_hash_write_conflicts_and_preserves_remote :
    (∀ (st : RemoteState) (params : CreateOrUpdateFileParams) (s : String),
        params.sha = some s → s ≠ "" → remoteShaAt st params.path ≠ some s →
        ∃ e, (createOrUpdateFile params st).1 = .error e ∧ e.isConflict = true ∧
          (createOrUpdateFile params st).2 = st)
    ∧
    (∀ (st : RemoteState) (ticket : Ticket) (now : String),
        ticket.sha ≠ "" → remoteShaAt st ticket.path ≠ some ticket.sha →
        ∃ e, (updateTicket ticket now st).1 = .error e ∧ e.isConflict = true ∧
          (updateTicket ticket now st).2 = st) := by
  constructor
  · intro st params s hs hne hmis
    obtain ⟨h1, h2⟩ := createOrUpdateFile_stale st params s hs hne hmis
    exact ⟨_, h1, rfl, h2⟩
  · intro st ticket now hne hmis
    obtain ⟨h1, h2⟩ :=
      createOrUpdateFile_stale st (updateTicketParams ticket now) ticket.sha rfl hne hmis
    refine ⟨⟨409, "expected hash does not match current remote content"⟩, ?_, rfl, ?_⟩
    · unfold updateTicket
      rw [show createOrUpdateFile (updateTicketParams ticket now) st
            = ((createOrUpdateFile (updateTicketParams ticket now) st).1,
               (createOrUpdateFile (updateTicketParams ticket now) st).2) from rfl,
          h1, h2]
    · unfold updateTicket
      rw [show createOrUpdateFile (updateTicketParams ticket now) st
            = ((createOrUpdateFile (updateTicketParams ticket now) st).1,
               (createOrUpdateFile (updateTicketParams ticket now) st).2) from rfl,
          h1, h2]

/-- A concrete ticket document used by witnesses. -/
def welcomeDoc : TicketYaml :=
  { title := "Welcome to Kabane!", type := "task", status := "backlog" }

/-- A one-file remote repository used by witnesses. -/
def exampleState : RemoteState :=
  [(".kabane/tickets/welcome.yml", .ticketDoc welcomeDoc)]

/-- Concrete stale-hash write parameters used by the C1 witness. -/
def staleParams : CreateOrUpdateFileParams :=
  { path := ".kabane/tickets/welcome.yml"
    content := .ticketDoc welcomeDoc
    message := "update"
    sha := some "0000stale0000" }

/-- A concrete in-memory ticket holding a stale sha. -/
def staleTicket : Ticket :=
  { id := "welcome"
    path := ".kabane/tickets/welcome.yml"
    sha := "0000stale0000"
    title := "Welcome to Kabane!"
    type := "task"
    status := "backlog" }

/-- Witness for C1 at a concrete one-file repository and a stale sha. -/
theorem stale_hash_write_conflicts_and_preserves_remote_witness :
    (∃ e, (createOrUpdateFile staleParams exampleState).1 = .error e ∧
        e.isConflict = true ∧
        (createOrUpdateFile staleParams exampleState).2 = exampleState)
    ∧
    (∃ e, (updateTicket staleTicket "2024-05-01T00:00:00.000Z" exampleState).1 = .error e ∧
        e.isConflict = true ∧
        (updateTicket staleTicket "2024-05-01T00:00:00.000Z" exampleState).2 = exampleState) :=
  ⟨stale_hash_write_conflicts_and_preserves_remote.1 exampleState staleParams
      "0000stale0000" rfl (by decide) (by decide),
   stale_hash_write_conflicts_and_preserves_remote.2 exampleState staleTicket
      "2024-05-01T00:00:00.000Z" (by decide) (by decide)⟩

/-- C2: when a ticket carries an empty-string sha, the truthiness guard in
createOrUpdateFile omits the sha field from the request body entirely, so
the write updateTicket issues carries no expected-hash gate and has
create-if-absent semantics. -/
theorem empty_sha_omits_hash_gate :
    ∀ (ticket : Ticket) (now : String), ticket.sha = "" →
      (buildRequestBody (updateTicketParams ticket now)).sha = none ∧
      ∀ st : RemoteState, List.lookup ticket.path st = none →
        ∃ resp, (updateTicket ticket now st).1 = .ok resp ∧
          (updateTicket ticket now st).2 =
            setFile st ticket.path (.ticketDoc (serializeTicketY now ticket)) := by
  intro ticket now hsha
  constructor
  · unfold buildRequestBody updateTicketParams
    simp [keepTruthyStr, hsha]
  · intro st habsent
    have hbody : buildRequestBody (updateTicketParams ticket now)
        = { message := "📝 Update ticket: " ++ ticket.title
            content := .ticketDoc (serializeTicketY now ticket)
            sha := none
            branch := none } := by
      unfold buildRequestBody updateTicketParams
      simp [keepTruthyStr, hsha]
    unfold updateTicket createOrUpdateFile
    rw [hbody]
    unfold providerPutFile
    simp only [updateTicketParams]
    rw [habsent]
    exact ⟨_, rfl, rfl⟩

/-- A concrete ticket carrying an empty sha, used by the C2 witness. -/
def emptyShaTicket : Ticket :=
  { id := "fresh"
    path := ".kabane/tickets/fresh.yml"
    sha := ""
    title := "Fresh ticket"
    type := "task"
    status := "backlog" }

/-- Witness for C2 at a concrete empty-sha ticket and an empty remote. -/
theorem empty_sha_omits_hash_gate_witness :
    (buildRequestBody (updateTicketParams emptyShaTicket "2024-05-01T00:00:00.000Z")).sha
        = none ∧
    ∃ resp,
      (updateTicket emptyShaTicket "2024-05-01T00:00:00.000Z" []).1 = .ok resp ∧
      (updateTicket emptyShaTicket "2024-05-01T00:00:00.000Z" []).2 =
        setFile [] emptyShaTicket.path
          (.ticketDoc (serializeTicketY "2024-05-01T00:00:00.000Z" emptyShaTicket)) :=
  ⟨(empty_sha_omits_hash_gate emptyShaTicket "2024-05-01T00:00:00.000Z" rfl).1,
   (empty_sha_omits_hash_gate emptyShaTicket "2024-05-01T00:00:00.000Z" rfl).2 [] rfl⟩

/-! ## Well-formedness for the ticket round trip (C3) -/

/-- An optional string field is absent or nonempty (so the truthiness
guard in serializeTicket keeps it). -/
def optStrOk (o : Option String) : Bool :=
  match o with
  | none => true
  | some s => s != ""

/-- An optional list field is absent or nonempty. -/
def optListOk (o : Option (List String)) : Bool :=
  match o with
  | none => true
  | some xs => !xs.isEmpty

/-- The priority is absent or one of the four valid values (what the
TypeScript union type already guarantees for an in-memory ticket). -/
def priorityOkB (o : Option String) : Bool :=
  match o with
  | none => true
  | some p => ["low", "medium", "high", "critical"].contains p

/-- Lexicographic order on character lists. -/
def charListLeB : List Char → List Char → Bool
  | [], _ => true
  | _ :: _, [] => false
  | a :: as, b :: bs => if a < b then true else if a = b then charListLeB as bs else false

/-- Lexicographic order on strings; on ISO-8601 timestamps this is the
chronological order. -/
def strLeB (a b : String) : Bool := charListLeB a.data b.data

/-- The stored updated-timestamp is absent or at most the encoding time. -/
def timeLeB (o : Option String) (now : String) : Bool :=
  match o with
  | none => true
  | some u => strLeB u now

/-- A ticket the store itself would hand out: the id the decoder derives
from the path is the ticket's id, the three required strings are nonempty,
and every optional field is absent or truthy/valid. -/
def WellFormedTicket (t : Ticket) : Prop :=
  extractTicketId t.path = t.id ∧
  t.title ≠ "" ∧ t.type ≠ "" ∧ t.status ≠ "" ∧
  priorityOkB t.priority = true ∧
  optListOk t.assignees = true ∧
  optListOk t.labels = true ∧
  optStrOk t.parent = true ∧
  optStrOk t.version = true ∧
  optStrOk t.dueDate = true ∧
  optStrOk t.description = true ∧
  optListOk t.images = true ∧
  optStrOk t.createdAt = true

instance (t : Ticket) : Decidable (WellFormedTicket t) := by
  unfold WellFormedTicket
  infer_instance

theorem keepTruthyStr_of_ok (o : Option String) (h : optStrOk o = true) :
    keepTruthyStr o = o := by
  cases o with
  | none => rfl
  | some s =>
      simp only [optStrOk, bne_iff_ne, ne_eq] at h
      simp [keepTruthyStr, h]

theorem normalize_keep_list (o : Option (List String)) (h : optListOk o = true) :
    normalizeArrayM (keepNonemptyList o) = o := by
  cases o with
  | none => rfl
  | some xs =>
      simp only [optListOk, Bool.not_eq_true', List.isEmpty_eq_false] at h
      have hlen : xs.length ≠ 0 := by
        simpa [List.length_eq_zero] using h
      simp [keepNonemptyList, normalizeArrayM, hlen]

theorem validate_keep_priority (o : Option String) (h : priorityOkB o = true) :
    validatePriority (keepTruthyStr o) = o := by
  cases o with
  | none => rfl
  | some p =>
      have hmem : p = "low" ∨ p = "medium" ∨ p = "high" ∨ p = "critical" := by
        simpa [priorityOkB] using h
      rcases hmem with h | h | h | h <;> subst h <;> decide

/-- A concrete ticket whose title is empty, breaking the round trip. -/
def emptyTitleTicket : Ticket :=
  { id := "welcome"
    path := ".kabane/tickets/welcome.yml"
    sha := "abc123"
    title := ""
    type := "task"
    status := "backlog" }

/-- C3 counterexample: the decode side replaces a falsy (empty) title by
the default "Ticket <id>", so parseTicketFile(serializeTicket(t), p, h)
does not reproduce the title field of a ticket with an empty title, and
the claim fails as stated. -/
theorem ticket_roundtrip_counterexample :
    (parseTicketFileY (serializeTicketY "2024-05-01T00:00:00.000Z" emptyTitleTicket)
        emptyTitleTicket.path emptyTitleTicket.sha).title ≠ emptyTitleTicket.title := by
  decide

/-- C3 (amended): for every well-formed ticket (derived id matches the
path, required strings nonempty, optional fields absent or truthy/valid)
whose stored updated-timestamp does not postdate the encoding time, the
round trip parseTicketFile(serializeTicket(t), t.path, t.sha) reproduces
every field of t except the updated-timestamp, which becomes the encoding
time and is hence ≥ the original. -/
theorem ticket_roundtrip_amended (t : Ticket) (now : String)
    (hwf : WellFormedTicket t) (hle : timeLeB t.updatedAt now = true) :
    parseTicketFileY (serializeTicketY now t) t.path t.sha
        = { t with updatedAt := some now } ∧
    timeLeB t.updatedAt now = true := by
  obtain ⟨hid, htitle, htype, hstatus, hpri, hassign, hlab, hpar, hver,
    hdue, hdesc, himg, hcre⟩ := hwf
  refine ⟨?_, hle⟩
  unfold parseTicketFileY serializeTicketY
  simp only [hid, if_neg htitle, if_neg htype, if_neg hstatus,
    validate_keep_priority _ hpri,
    normalize_keep_list _ hassign, normalize_keep_list _ hlab,
    normalize_keep_list _ himg,
    keepTruthyStr_of_ok _ hpar, keepTruthyStr_of_ok _ hver,
    keepTruthyStr_of_ok _ hdue, keepTruthyStr_of_ok _ hdesc,
    keepTruthyStr_of_ok _ hcre]

/-- A fully populated, well-formed concrete ticket. -/
def richTicket : Ticket :=
  { id := "t1"
    path := ".kabane/tickets/t1.yml"
    sha := "sha1"
    title := "Fix login"
    type := "bug"
    status := "in-progress"
    priority := some "high"
    assignees := some ["alice"]
    labels := some ["auth"]
    parent := some "epic1"
    version := some "v1"
    estimate := some 3
    dueDate := some "2024-06-01"
    description := some "Broken login flow"
    images := some ["shot.png"]
    updatedAt := some "2024-04-01T00:00:00.000Z"
    createdAt := some "2024-03-01T00:00:00.000Z" }

/-- Witness for the amended C3 at a fully populated concrete ticket. -/
theorem ticket_roundtrip_amended_witness :
    parseTicketFileY (serializeTicketY "2024-05-01T00:00:00.000Z" richTicket)
        richTicket.path richTicket.sha
      = { richTicket with updatedAt := some "2024-05-01T00:00:00.000Z" } :=
  (ticket_roundtrip_amended richTicket "2024-05-01T00:00:00.000Z"
    (by decide) (by decide)).1

/-- C7: for each list-style file, decoding the keyed-object YAML shape and
decoding the bare-sequence shape of the same list yield the same in-memory
collection. -/
theorem list_file_dual_shape_decoding :
    (∀ xs : List RawColumn,
        parseColumnsFileY (.keyed (some xs)) = parseColumnsFileY (.bare xs)) ∧
    (∀ xs : List TicketType,
        parseTicketTypesFileY (.keyed (some xs)) = parseTicketTypesFileY (.bare xs)) ∧
    (∀ xs : List Version,
        parseVersionsFileY (.keyed (some xs)) = parseVersionsFileY (.bare xs)) :=
  ⟨fun _ => rfl, fun _ => rfl, fun _ => rfl⟩

/-! ## Claims about listing and bulk loading (C4, C5, C6, C10) -/

/-- Two matching blobs, of which a truncated provider response delivers
only the first. -/
def treeItemA : GitHubTreeItem :=
  { path := ".kabane/tickets/a.yml", type := .blob, sha := "shaA" }

def treeItemB : GitHubTreeItem :=
  { path := ".kabane/tickets/b.yml", type := .blob, sha := "shaB" }

/-- A provider response that carries the truncation flag and has dropped
treeItemB. -/
def truncatedResp : TreeResponse := { tree := [treeItemA], truncated := true }

/-- C4 counterexample: with a truncated response missing one matching blob,
listFilesRecursively returns the partial listing [treeItemA] with no
warning channel in its return type, even though treeItemB is a blob under
the listed path that the full tree contains — the listing is silently
partial, so the claim fails as stated. -/
theorem truncated_listing_counterexample :
    truncatedResp.truncated = true ∧
    listFilesRecursively (.ok truncatedResp) ".kabane/tickets" = .ok [treeItemA] ∧
    (treeItemB.type == TreeItemType.blob
      && strStartsWith treeItemB.path (normalizePath ".kabane/tickets")) = true ∧
    treeItemB ∉ [treeItemA] := by
  refine ⟨rfl, rfl, by decide, by decide⟩

/-- C4 (amended): listFilesRecursively ignores the provider truncation
flag entirely: its result does not depend on the flag and always equals
the blobs of the (possibly partial) response tree whose path starts with
the normalized root — entries the provider truncated away are silently
absent and no warning is surfaced. -/
theorem truncated_listing_ignored (tree : List GitHubTreeItem) (t1 t2 : Bool)
    (path : String) :
    listFilesRecursively (.ok { tree := tree, truncated := t1 }) path
        = listFilesRecursively (.ok { tree := tree, truncated := t2 }) path ∧
    listFilesRecursively (.ok { tree := tree, truncated := true }) path
        = .ok (tree.filter fun item =>
            item.type == TreeItemType.blob
              && strStartsWith item.path (normalizePath path)) :=
  ⟨rfl, rfl⟩

/-- The loadTickets loop over all-YAML listings is exactly filterMap of the
per-file fetch-and-parse step. -/
theorem loadTicketsFromFiles_eq_filterMap (st : RemoteState)
    (files : List GitHubTreeItem)
    (h : ∀ f ∈ files, (strEndsWith f.path ".yml" || strEndsWith f.path ".yaml") = true) :
    loadTicketsFromFiles st files = files.filterMap (fetchAndParseTicket st) := by
  induction files with
  | nil => rfl
  | cons f rest ih =>
      have hf := h f (List.mem_cons_self f rest)
      have hrest : ∀ g ∈ rest, (strEndsWith g.path ".yml" || strEndsWith g.path ".yaml") = true :=
        fun g hg => h g (List.mem_cons_of_mem f hg)
      unfold loadTicketsFromFiles
      rw [if_pos hf]
      cases hfp : fetchAndParseTicket st f with
      | some t => simp [List.filterMap_cons, hfp, ih hrest]
      | none => simp [List.filterMap_cons, hfp, ih hrest]

/-- filterMap keeps as many elements as there are some-results. -/
theorem filterMap_length_countP {α β : Type} (f : α → Option β) (l : List α) :
    (l.filterMap f).length = l.countP (fun a => (f a).isSome) := by
  induction l with
  | nil => rfl
  | cons a l ih =>
      cases h : f a <;> simp [List.filterMap_cons, h, List.countP_cons, ih]

/-- Per-element success and failure counts add up to the length. -/
theorem countP_isSome_add_isNone {α β : Type} (f : α → Option β) (l : List α) :
    l.countP (fun a => (f a).isSome) + l.countP (fun a => (f a).isNone) = l.length := by
  induction l with
  | nil => rfl
  | cons a l ih =>
      cases h : f a <;>
        simp [List.countP_cons, h, ← ih] <;> omega

/-- C5: over a listing of YAML ticket files of which exactly one fails to
fetch or decode, loadTickets returns exactly the successfully decoded
tickets — one fewer than the number of files — and never raises for a
successful listing. -/
theorem one_bad_ticket_is_isolated (st : RemoteState) (files : List GitHubTreeItem)
    (hyml : ∀ f ∈ files, (strEndsWith f.path ".yml" || strEndsWith f.path ".yaml") = true)
    (hone : files.countP (fun f => (fetchAndParseTicket st f).isNone) = 1) :
    loadTicketsFromFiles st files = files.filterMap (fetchAndParseTicket st) ∧
    (loadTicketsFromFiles st files).length = files.length - 1 ∧
    ∀ resp : TreeResponse, ∃ ts, loadTickets st (.ok resp) = .ok ts := by
  have heq := loadTicketsFromFiles_eq_filterMap st files hyml
  refine ⟨heq, ?_, fun resp => ⟨_, rfl⟩⟩
  rw [heq, filterMap_length_countP]
  have := countP_isSome_add_isNone (fetchAndParseTicket st) files
  omega

/-- A two-file remote with one well-formed and one malformed ticket file. -/
def mixedState : RemoteState :=
  [(".kabane/tickets/a.yml", .ticketDoc welcomeDoc),
   (".kabane/tickets/b.yml", .malformed)]

def mixedFiles : List GitHubTreeItem :=
  [{ path := ".kabane/tickets/a.yml", type := .blob, sha := "shaA" },
   { path := ".kabane/tickets/b.yml", type := .blob, sha := "shaB" }]

/-- Witness for C5: two listed ticket files, one malformed, load to exactly
one ticket. -/
theorem one_bad_ticket_is_isolated_witness :
    loadTicketsFromFiles mixedState mixedFiles
        = mixedFiles.filterMap (fetchAndParseTicket mixedState) ∧
    (loadTicketsFromFiles mixedState mixedFiles).length = mixedFiles.length - 1 :=
  ⟨(one_bad_ticket_is_isolated mixedState mixedFiles (by decide) (by decide)).1,
   (one_bad_ticket_is_isolated mixedState mixedFiles (by decide) (by decide)).2.1⟩

/-- C6: against an absent tickets directory (the branch-ref or tree lookup
yields NotFound) or an empty one (no blob under the tickets path),
loadTickets returns the empty collection and does not raise. -/
theorem empty_or_absent_tickets_dir (st : RemoteState) (e : GitHubAPIError)
    (hnf : e.isNotFound = true) :
    loadTickets st (.error e) = .ok [] ∧
    ∀ resp : TreeResponse,
      (∀ item ∈ resp.tree,
          (item.type == TreeItemType.blob
            && strStartsWith item.path (normalizePath TICKETS_FOLDER)) = false) →
      loadTickets st (.ok resp) = .ok [] := by
  constructor
  · unfold loadTickets listFilesRecursively
    simp [hnf]
  · intro resp hnone
    have hfil : resp.tree.filter (fun item =>
        item.type == TreeItemType.blob
          && strStartsWith item.path (normalizePath TICKETS_FOLDER)) = [] :=
      List.filter_eq_nil_iff.mpr (fun item hitem => by simp [hnone item hitem])
    have hlist : listFilesRecursively (.ok resp) TICKETS_FOLDER = .ok [] := by
      unfold listFilesRecursively
      simp [hfil]
    unfold loadTickets
    rw [hlist]
    rfl

/-- A listing whose only entry is a blob outside the tickets folder. -/
def nonTicketResp : TreeResponse :=
  { tree := [{ path := "README.md", type := .blob, sha := "shaR" }], truncated := false }

/-- Witness for C6: a 404 listing error and a listing with no entry under
the tickets path both yield the empty collection. -/
theorem empty_or_absent_tickets_dir_witness :
    loadTickets [] (.error { status := 404, message := "Not Found" }) = .ok [] ∧
    loadTickets [] (.ok nonTicketResp) = .ok [] :=
  ⟨(empty_or_absent_tickets_dir [] { status := 404, message := "Not Found" } rfl).1,
   (empty_or_absent_tickets_dir [] { status := 404, message := "Not Found" } rfl).2
      nonTicketResp (by decide)⟩

/-- Anything the per-file step accepts from a listed file is in the load
result. -/
theorem mem_loadTicketsFromFiles (st : RemoteState) (files : List GitHubTreeItem)
    (f : GitHubTreeItem) (t : Ticket) (hmem : f ∈ files)
    (hyml : (strEndsWith f.path ".yml" || strEndsWith f.path ".yaml") = true)
    (hfp : fetchAndParseTicket st f = some t) :
    t ∈ loadTicketsFromFiles st files := by
  induction files with
  | nil => cases hmem
  | cons g rest ih =>
      unfold loadTicketsFromFiles
      rcases List.mem_cons.mp hmem with heq | hmem2
      · subst heq
        rw [if_pos hyml, hfp]
        exact List.mem_cons_self _ _
      · by_cases hg : (strEndsWith g.path ".yml" || strEndsWith g.path ".yaml") = true
        · rw [if_pos hg]
          cases hgp : fetchAndParseTicket st g with
          | some u =>
              exact List.mem_cons_of_mem _ (ih hmem2)
          | none =>
              exact ih hmem2
        · rw [if_neg hg]
          exact ih hmem2

/-- C10: the blob filter is a plain string-prefix test with no trailing
separator check, so any blob whose path merely begins with the normalized
tickets root (such as .kabane/tickets-archive/a.yml) is included in the
listing, and when such a file ends in .yml and fetches as ticket YAML,
loadTickets decodes it as a ticket. -/
theorem prefix_filter_includes_sibling_paths (resp : TreeResponse)
    (item : GitHubTreeItem) (st : RemoteState) (doc : TicketYaml)
    (hmem : item ∈ resp.tree) (hblob : item.type = TreeItemType.blob)
    (hpre : strStartsWith item.path (normalizePath TICKETS_FOLDER) = true)
    (hyml : strEndsWith item.path ".yml" = true)
    (hfetch : List.lookup item.path st = some (.ticketDoc doc)) :
    item ∈ resp.tree.filter (fun it =>
        it.type == TreeItemType.blob
          && strStartsWith it.path (normalizePath TICKETS_FOLDER)) ∧
    parseTicketFileY doc item.path (contentHash (.ticketDoc doc))
        ∈ loadTicketsFromFiles st (resp.tree.filter (fun it =>
            it.type == TreeItemType.blob
              && strStartsWith it.path (normalizePath TICKETS_FOLDER))) ∧
    listFilesRecursively (.ok resp) TICKETS_FOLDER
        = .ok (resp.tree.filter (fun it =>
            it.type == TreeItemType.blob
              && strStartsWith it.path (normalizePath TICKETS_FOLDER))) ∧
    loadTickets st (.ok resp)
        = .ok (loadTicketsFromFiles st (resp.tree.filter (fun it =>
            it.type == TreeItemType.blob
              && strStartsWith it.path (normalizePath TICKETS_FOLDER)))) := by
  have hfilter : item ∈ resp.tree.filter (fun it =>
      it.type == TreeItemType.blob
        && strStartsWith it.path (normalizePath TICKETS_FOLDER)) := by
    apply List.mem_filter.mpr
    refine ⟨hmem, ?_⟩
    simp [hblob, hpre]
  refine ⟨hfilter, ?_, rfl, rfl⟩
  apply mem_loadTicketsFromFiles st _ item _ hfilter (by simp [hyml])
  simp [fetchAndParseTicket, fetchFileContent, hfetch]

/-- A blob in the sibling archive folder holding valid ticket YAML. -/
def archiveItem : GitHubTreeItem :=
  { path := ".kabane/tickets-archive/a.yml", type := .blob, sha := "shaArc" }

def archiveResp : TreeResponse := { tree := [archiveItem], truncated := false }

def archiveState : RemoteState :=
  [(".kabane/tickets-archive/a.yml", .ticketDoc welcomeDoc)]

/-- Witness for C10: the archive-folder blob is listed under the tickets
root and decoded as a ticket. -/
theorem prefix_filter_includes_sibling_paths_witness :
    archiveItem ∈ archiveResp.tree.filter (fun it =>
        it.type == TreeItemType.blob
          && strStartsWith it.path (normalizePath TICKETS_FOLDER)) ∧
    parseTicketFileY welcomeDoc archiveItem.path (contentHash (.ticketDoc welcomeDoc))
        ∈ loadTicketsFromFiles archiveState (archiveResp.tree.filter (fun it =>
            it.type == TreeItemType.blob
              && strStartsWith it.path (normalizePath TICKETS_FOLDER))) :=
  ⟨(prefix_filter_includes_sibling_paths archiveResp archiveItem archiveState welcomeDoc
      (by decide) rfl (by decide) (by decide) (by decide)).1,
   (prefix_filter_includes_sibling_paths archiveResp archiveItem archiveState welcomeDoc
      (by decide) rfl (by decide) (by decide) (by decide)).2.1⟩

/-! ## Claims about image upload (C8, C9) -/

/-- Two strings are equal when their character data are. -/
theorem string_eq_of_data {a b : String} (h : a.data = b.data) : a = b := by
  cases a; cases b; exact congrArg String.mk h

/-- String append concatenates the character data. -/
theorem string_data_append (a b : String) : (a ++ b).data = a.data ++ b.data := by
  cases a; cases b; rfl

/-- Nat.digitChar is injective below ten. -/
theorem digitChar_inj_lt : ∀ a < 10, ∀ b < 10, Nat.digitChar a = Nat.digitChar b → a = b := by
  decide

/-- Mapping digitChar over digit lists is injective. -/
theorem map_digitChar_inj : ∀ l1 l2 : List Nat, (∀ d ∈ l1, d < 10) → (∀ d ∈ l2, d < 10) →
    l1.map Nat.digitChar = l2.map Nat.digitChar → l1 = l2 := by
  intro l1
  induction l1 with
  | nil =>
      intro l2 _ _ h
      cases l2 with
      | nil => rfl
      | cons b bs => simp at h
  | cons a as ih =>
      intro l2 h1 h2 h
      cases l2 with
      | nil => simp at h
      | cons b bs =>
          simp only [List.map_cons, List.cons.injEq] at h
          have hab := digitChar_inj_lt a (h1 a (by simp)) b (h2 b (by simp)) h.1
          have htail := ih bs (fun d hd => h1 d (by simp [hd]))
            (fun d hd => h2 d (by simp [hd])) h.2
          simp [hab, htail]

/-- Only zero renders as the string "0". -/
theorem natToDecString_eq_zero {n : Nat} (h : natToDecString n = "0") : n = 0 := by
  by_contra hn
  unfold natToDecString at h
  rw [if_neg hn] at h
  have hdata := congrArg String.data h
  have hmap : (Nat.digits 10 n).map Nat.digitChar = ['0'] := by
    have hrev := congrArg List.reverse hdata
    simpa using hrev
  cases hdig : Nat.digits 10 n with
  | nil => simp [hdig] at hmap
  | cons d ds =>
      rw [hdig] at hmap
      cases ds with
      | cons d2 ds2 => simp at hmap
      | nil =>
          simp only [List.map_cons, List.map_nil, List.cons.injEq] at hmap
          have hd10 : d < 10 :=
            Nat.digits_lt_base (by norm_num) (by rw [hdig]; simp)
          have hd0 : d = 0 :=
            digitChar_inj_lt d hd10 0 (by norm_num) (by simpa using hmap.1)
          have hofd := Nat.ofDigits_digits 10 n
          rw [hdig, hd0] at hofd
          simp [Nat.ofDigits] at hofd
          exact hn hofd.symm

/-- Decimal rendering of naturals is injective. -/
theorem natToDecString_inj {m n : Nat} (h : natToDecString m = natToDecString n) :
    m = n := by
  by_cases hm : m = 0 <;> by_cases hn : n = 0
  · rw [hm, hn]
  · exact absurd (natToDecString_eq_zero (h.symm.trans (by rw [hm]; rfl))) hn
  · exact absurd (natToDecString_eq_zero (h.trans (by rw [hn]; rfl))) hm
  · unfold natToDecString at h
    rw [if_neg hm, if_neg hn] at h
    have hdata := congrArg String.data h
    have hrev : ((Nat.digits 10 m).map Nat.digitChar).reverse
        = ((Nat.digits 10 n).map Nat.digitChar).reverse := by simpa using hdata
    have hmap := List.reverse_injective hrev
    have hdig := map_digitChar_inj _ _
      (fun d hd => Nat.digits_lt_base (by norm_num) hd)
      (fun d hd => Nat.digits_lt_base (by norm_num) hd) hmap
    exact Nat.digits_inj_iff.mp hdig

/-- C8 counterexample: the only per-call variation in the generated stored
name is the observed Date.now() millisecond timestamp, so two concurrent
uploads observing the same timestamp with the same original name generate
the same stored name — the claim that two uploads never collide is false. -/
theorem image_name_collision_counterexample :
    ¬ (∀ (ts1 ts2 : Nat) (name : String),
          storedImageName ts1 name ≠ storedImageName ts2 name) :=
  fun h => h 1700000000000 1700000000000 "logo.png" rfl

/-- C8 (amended): two uploadImage calls with identical original names
generate distinct stored names exactly when they observe distinct
millisecond timestamps; uploads at different timestamps never collide,
while same-timestamp (concurrent) uploads always do. -/
theorem image_name_distinct_iff_timestamps_differ (ts1 ts2 : Nat) (name : String) :
    storedImageName ts1 name ≠ storedImageName ts2 name ↔ ts1 ≠ ts2 := by
  constructor
  · intro hne heq
    exact hne (by rw [heq])
  · intro hne heq
    apply hne
    apply natToDecString_inj (m := ts1) (n := ts2)
    apply string_eq_of_data
    have hdata := congrArg String.data heq
    unfold storedImageName at hdata
    simp only [string_data_append, List.append_assoc] at hdata
    simpa using hdata

/-- C9: uploadImage validates the file extension against the allow-list
before any network activity: on a name failing the check it throws the
invalid-extension error with an empty request trace (no request issued). -/
theorem upload_invalid_extension_no_network (owner repo ticketId fileName : String)
    (timestamp : Nat) (branch : Option String)
    (hbad : isValidImageExtension fileName = false) :
    (uploadImage owner repo ticketId fileName timestamp branch).2 = [] ∧
    (uploadImage owner repo ticketId fileName timestamp branch).1
      = .error ("Invalid image extension. Allowed: "
          ++ String.intercalate ", " ALLOWED_IMAGE_EXTENSIONS) := by
  unfold uploadImage
  rw [hbad]
  exact ⟨rfl, rfl⟩

/-- Witness for C9: uploading diagram.bmp is rejected with no network
request. -/
theorem upload_invalid_extension_no_network_witness :
    (uploadImage "acme" "proj" "t1" "diagram.bmp" 1700000000000 none).2 = [] ∧
    (uploadImage "acme" "proj" "t1" "diagram.bmp" 1700000000000 none).1
      = .error ("Invalid image extension. Allowed: "
          ++ String.intercalate ", " ALLOWED_IMAGE_EXTENSIONS) :=
  upload_invalid_extension_no_network "acme" "proj" "t1" "diagram.bmp"
    1700000000000 none (by decide)

end Kabane
